import Mathlib

/-!
# rust-bridge: the Go side of the boundary with the native query/index engine

A shallow embedding of `bridge.go`, `callback.go` and `callback/callback.go`.

* A Go `[]byte` is its slice header (`Slice`): data pointer, length and the
  capacity left beyond the length.  The bytes live in a memory `Mem`.
* Run-time panics (index out of range, slice bounds, `unsafe.Slice`) are
  explicit results.
* Every call that crosses the cgo boundary, every `C.free`, every
  `cgo.Handle` creation/deletion and every logger call is an `Event` appended
  to the trace of the `World`.
* The native engine, the protobuf serializer and the `codec` flatteners are
  parameters (`Env`): the bridge is verified for every behaviour they have.
* Target: 64-bit (Go `int` is 64 bits, `C.ulong` is 64 bits, `C.uint` and
  `C.int` are 32 bits).
-/

namespace RustBridge

/-! ## Go values -/

/-- One byte. -/
abbrev Byte := Fin 256

/-- Memory: the byte stored at each address. -/
abbrev Mem := Nat → Byte

/-- Run-time panics of the Go runtime that the bridge can raise. -/
inductive Panic where
  /-- Index expression `s[i]` with `i >= len(s)`. -/
  | indexOutOfRange (i len : Nat)
  /-- Slice expression `s[lo:hi]` with `hi > cap(s)` (or `hi > len(s)` when
  `hi` is omitted) or `lo > hi`. -/
  | sliceBounds (lo hi bound : Nat)
  /-- Call `unsafe.Slice(ptr, len)` with `len < 0`. -/
  | unsafeSliceLen
  /-- Call `unsafe.Slice(nil, len)` with `len != 0`. -/
  | unsafeSliceNilPtr
  /-- Field access or call through a nil pointer / nil func. -/
  | nilDereference
  /-- Use of a `cgo.Handle` that is not live. -/
  | invalidHandle
  deriving DecidableEq, Repr

deriving instance DecidableEq for Except

/-- Slice header of a Go `[]byte`: `ptr` is the address of element 0 (0 is the
nil pointer), `len` the length, and `extra` the capacity beyond the length, so
that `cap = len + extra` and `len <= cap` holds for every value. -/
structure Slice where
  ptr : Nat
  len : Nat
  extra : Nat
  deriving DecidableEq, Repr

namespace Slice

/-- Value of `cap(s)`. -/
def cap (s : Slice) : Nat := s.len + s.extra

/-- The nil slice. -/
def nil : Slice := ⟨0, 0, 0⟩

/-- The bytes a slice views: `s[0], ..., s[len(s)-1]`. -/
def bytes (mem : Mem) (s : Slice) : List Byte :=
  (List.range s.len).map (fun k => mem (s.ptr + k))

/-- Slice expression `s[lo:hi]`: bounds are checked against the capacity, the
result shares the backing array. -/
def slice (s : Slice) (lo hi : Nat) : Except Panic Slice :=
  if hi ≤ s.cap then
    if lo ≤ hi then .ok ⟨s.ptr + lo, hi - lo, s.cap - hi⟩
    else .error (.sliceBounds lo hi hi)
  else .error (.sliceBounds lo hi s.cap)

/-- Slice expression `s[lo:]`: the upper bound is `len(s)`. -/
def sliceFrom (s : Slice) (lo : Nat) : Except Panic Slice :=
  if lo ≤ s.len then .ok ⟨s.ptr + lo, s.len - lo, s.extra⟩
  else .error (.sliceBounds lo s.len s.len)

/-- Address-of-index expression `&s[i]`. -/
def addrOf (s : Slice) (i : Nat) : Except Panic Nat :=
  if i < s.len then .ok (s.ptr + i) else .error (.indexOutOfRange i s.len)

end Slice

/-- The 32-bit little-endian value stored at address `p`. -/
def le32 (mem : Mem) (p : Nat) : Nat :=
  (mem p).val + (mem (p + 1)).val * 2 ^ 8 + (mem (p + 2)).val * 2 ^ 16
    + (mem (p + 3)).val * 2 ^ 24

/-- Function `binary.LittleEndian.Uint32(b)`: bounds-checks `b[3]`, then
combines `b[0..3]`. -/
def LittleEndian.Uint32 (mem : Mem) (b : Slice) : Except Panic Nat :=
  if 3 < b.len then .ok (le32 mem b.ptr) else .error (.indexOutOfRange 3 b.len)

/-- Source `bridge.go:35`.
```go
sz := binary.LittleEndian.Uint32(data[:4]) + 4
return data[4:sz], data[sz:]
```
The sum is a `uint32` sum, hence taken modulo `2^32`. -/
def SplitIndexQuickFilter (mem : Mem) (data : Slice) : Except Panic (Slice × Slice) := do
  let b ← data.slice 0 4
  let v ← LittleEndian.Uint32 mem b
  let sz := (v + 4) % 2 ^ 32
  let q ← data.slice 4 sz
  let i ← data.sliceFrom sz
  pure (q, i)

/-! ## The cgo boundary -/

/-- Go `error` values returned by the bridge: the two package-level sentinels
(`bridge.go:24-27`) and errors built at call time by `errors.New` /
`fmt.Errorf`. -/
inductive GoError where
  | ErrFlattenColumnedEntity
  | ErrIndexEntity
  | errorsNew (msg : String)
  deriving DecidableEq, Repr

/-- Method `Error()` of an error value. -/
def GoError.Error : GoError → String
  | .ErrFlattenColumnedEntity => "empty column entity input"
  | .ErrIndexEntity => "empty entity index"
  | .errorsNew msg => msg

/-- A value of type `C.ulong`. -/
abbrev CULong := Fin (2 ^ 64)

/-- Conversion `int(x)` of a `C.ulong`: the same 64 bits read as signed. -/
def CULong.toInt (n : CULong) : Int :=
  if n.val < 2 ^ 63 then (n.val : Int) else (n.val : Int) - 2 ^ 64

/-- Conversion `C.uint(n)` of a non-negative Go `int`. -/
def toCUInt (n : Nat) : Nat := n % 2 ^ 32

/-- Conversion `C.ulong(n)` of a Go `uint64`. -/
def toCULong (n : Nat) : Nat := n % 2 ^ 64

/-- Result descriptor of `ssql_arrow_schema`, `query_cluster` and
`build_index`: three independent fields (`ba.ptr`, `ba.len`, `ba.err`);
a pointer is its address, 0 is `NULL`. -/
structure ByteArray where
  ptr : Nat
  len : CULong
  err : Nat
  deriving DecidableEq, Repr

/-- The `header` / `body` member of the exchange result. -/
structure Buffer where
  ptr : Nat
  len : CULong
  deriving DecidableEq, Repr

/-- Result descriptor of `exchange` (`efd.header`, `efd.body`, `efd.err`). -/
structure ExchangeFlightData where
  header : Buffer
  body : Buffer
  err : Nat
  deriving DecidableEq, Repr

/-- What the native `exchange` entry point does during one call: it returns
its descriptor, or it first re-enters Go through `send_to_go` (header length,
header pointer, body length, body pointer) and goes on according to the
boolean it gets back. -/
inductive ExchangeRun where
  | ret (efd : ExchangeFlightData)
  | call (hsz : Int) (header : Nat) (bsz : Int) (body : Nat) (k : Bool → ExchangeRun)

/-- Function `unsafe.Slice(ptr, len)`: panics when `len` is negative, or when
`ptr` is nil and `len` is not zero; `unsafe.Slice(nil, 0)` is the nil slice;
otherwise a slice of length and capacity `len` at `ptr`. -/
def unsafeSlice (ptr : Nat) (len : Int) : Except Panic Slice :=
  if len < 0 then .error .unsafeSliceLen
  else if ptr = 0 then
    if len = 0 then .ok Slice.nil else .error .unsafeSliceNilPtr
  else .ok ⟨ptr, len.toNat, 0⟩

/-- The subset of `flight.FlightData` the bridge reads and writes (its
`FlightDescriptor` is never touched). -/
structure FlightData where
  DataHeader : Slice
  AppMetadata : Slice
  DataBody : Slice
  deriving DecidableEq, Repr

/-- Source `callback.go:5`. `Send` should return true on failure, false
otherwise; a nil func is `none`. -/
structure Callback where
  Send : Option (Slice → Slice → Bool)

/-- Observable steps of a bridge call, in program order. -/
inductive Event where
  /-- Call `C.CString(s)` returned `p`. -/
  | CString (s : String) (p : Nat)
  /-- Call `C.free(p)`. -/
  | free (p : Nat)
  | Errorf (msg : String)
  | Noticef (msg : String)
  | add_quick_filter (name id buf len : Nat)
  | ssql_arrow_schema (buf len : Nat)
  | query_cluster (dir buf len transientID transientBuf transientLen : Nat)
  | exchange (dir : Nat) (partition : Byte) (stmt stmtLen transientID side sideLen : Nat)
      (handle : Nat) (streaming : Bool)
  | build_index (buf len : Nat)
  /-- Call `cgo.NewHandle` returned handle `h`. -/
  | NewHandle (h : Nat)
  /-- Call `h.Delete()`. -/
  | Delete (h : Nat)
  /-- The engine entered `send_to_go` with the handle `h`. -/
  | send_to_go (h : Nat) (hsz : Int) (header : Nat) (bsz : Int) (body : Nat)
  /-- The `Send` predicate returned `stop`. -/
  | sent (stop : Bool)
  deriving DecidableEq, Repr

/-- Process state the bridge acts on: the trace of events so far and the
`runtime/cgo` handle table (`handleIdx`, `handles`). -/
structure World where
  trace : List Event
  handleIdx : Nat
  handles : List (Nat × Callback)

/-- Go code acting on the world: it returns a value or panics. -/
def M (α : Type) : Type := World → Except Panic α × World

namespace M

/-- Sequencing: a panic skips the rest. -/
def bind {α β : Type} (m : M α) (f : α → M β) : M β := fun w =>
  match m w with
  | (.ok a, w1) => f a w1
  | (.error p, w1) => (.error p, w1)

instance : Monad M where
  pure a := fun w => (.ok a, w)
  bind := M.bind

/-- Append an event to the trace. -/
def emit (e : Event) : M Unit := fun w => (.ok (), { w with trace := w.trace ++ [e] })

/-- Raise a panic. -/
def panic {α : Type} (p : Panic) : M α := fun w => (.error p, w)

/-- Run a computation that can only panic. -/
def liftE {α : Type} : Except Panic α → M α
  | .ok a => pure a
  | .error p => panic p

/-- Statement `defer cleanup` followed by `body`: the deferred call runs when
`body` returns and also when it panics; the panic then goes on (a panic of the
deferred call itself replaces it). -/
def defer {α : Type} (cleanup : M Unit) (body : M α) : M α := fun w =>
  match body w with
  | (.ok a, w1) =>
    match cleanup w1 with
    | (.ok _, w2) => (.ok a, w2)
    | (.error p, w2) => (.error p, w2)
  | (.error p, w1) =>
    match cleanup w1 with
    | (.ok _, w2) => (.error p, w2)
    | (.error q, w2) => (.error q, w2)

end M

/-- Function `cgo.NewHandle(v)`: the next index, stored in the table. -/
def NewHandle (v : Callback) : M Nat := fun w =>
  let h := w.handleIdx + 1
  (.ok h, { trace := w.trace ++ [.NewHandle h], handleIdx := h,
            handles := (h, v) :: w.handles.filter (fun e => e.1 ≠ h) })

/-- Method `h.Value()`: panics on a handle that is not live. -/
def Handle.Value (h : Nat) : M Callback := fun w =>
  match w.handles.find? (fun e => e.1 = h) with
  | some e => (.ok e.2, w)
  | none => (.error .invalidHandle, w)

/-- Method `h.Delete()`: panics on a handle that is not live. -/
def Handle.Delete (h : Nat) : M Unit := fun w =>
  let w1 := { w with trace := w.trace ++ [.Delete h] }
  match w.handles.find? (fun e => e.1 = h) with
  | some _ => (.ok (), { w1 with handles := w.handles.filter (fun e => e.1 ≠ h) })
  | none => (.error .invalidHandle, w1)

/-- The collaborators of the bridge, none of them in this repository: the C
allocator and string reader, the protobuf serializer, the `codec` flatteners
and the five entry points of the native engine. -/
structure Env (Stmt Entity : Type) where
  /-- Address returned by `C.CString(s)`. -/
  CString : String → Nat
  /-- Value of `C.GoString(p)`: the NUL-terminated string at `p`. -/
  GoString : Nat → String
  /-- Address of the backing array of the literal `[]byte{}`. -/
  zerobase : Nat
  mem : Mem
  /-- Function `proto.Marshal`. -/
  Marshal : Stmt → Except GoError Slice
  /-- Method `stmt.String()`. -/
  stmtString : Stmt → String
  FlattenClusterQuery : Slice → List String → Int → Slice
  FlattenColumnizedEntities : List Entity → Slice
  add_quick_filter : Nat → Nat → Nat → Nat → Nat
  ssql_arrow_schema : Nat → Nat → ByteArray
  query_cluster : Nat → Nat → Nat → Nat → Nat → Nat → ByteArray
  exchange : Nat → Byte → Nat → Nat → Nat → Nat → Nat → Nat → Bool → ExchangeRun
  build_index : Nat → Nat → ByteArray

/-! ## Bridge operations -/

section Operations

variable {Stmt Entity : Type}

/-- Call `C.CString(s)`. -/
def C.CString (env : Env Stmt Entity) (s : String) : M Nat := do
  let p := env.CString s
  M.emit (.CString s p)
  pure p

/-- Call `C.free(p)`. -/
def C.free (p : Nat) : M Unit := M.emit (.free p)

/-- The error decoding shared by the operations.
```go
if e != nil {
	err = errors.New(C.GoString(e))
	C.free(unsafe.Pointer(e))
}
```
The value `err` keeps what it held when `e` is nil. -/
def decodeErr (env : Env Stmt Entity) (e : Nat) (err : Option GoError) : M (Option GoError) :=
  if e ≠ 0 then do
    let err := GoError.errorsNew (env.GoString e)
    C.free e
    pure (some err)
  else pure err

/-- Source `bridge.go:40`. -/
def AddQuickFilter (env : Env Stmt Entity) (flightName : String) (id : Nat) (data : Slice) :
    M (Option GoError) := do
  let c_ptr ← C.CString env flightName
  M.defer (C.free c_ptr) do
    let buf ← M.liftE (data.addrOf 0)
    M.emit (.add_quick_filter c_ptr (toCULong id) buf (toCUInt data.len))
    let e := env.add_quick_filter c_ptr (toCULong id) buf (toCUInt data.len)
    decodeErr env e none

/-- Source `bridge.go:52`. -/
def StatementToArrowSchema (env : Env Stmt Entity) (stmt : Stmt) :
    M (Slice × Option GoError) :=
  match env.Marshal stmt with
  | .error err => do
    M.emit (.Errorf ("failed marshall SSQL statement: " ++ err.Error))
    pure (Slice.nil, some err)
  | .ok data => do
    let buf ← M.liftE (data.addrOf 0)
    M.emit (.ssql_arrow_schema buf (toCUInt data.len))
    let ba := env.ssql_arrow_schema buf (toCUInt data.len)
    let data ←
      if ba.ptr ≠ 0 then M.liftE (unsafeSlice ba.ptr ba.len.toInt)
      else do
        M.emit (.Noticef ("converting to arrow schema statement " ++ env.stmtString stmt
          ++ " returns empty data"))
        pure Slice.nil
    let err ← decodeErr env ba.err none
    pure (data, err)

/-- Source `bridge.go:80`. -/
def QueryCluster (env : Env Stmt Entity) (dir : String) (stmt : Stmt) (hosts : List String)
    (loc : Int) (transientID : Nat) (transientBuf : Slice) : M (Slice × Option GoError) := do
  let ptr ← C.CString env dir
  M.defer (C.free ptr) <|
    match env.Marshal stmt with
    | .error err => do
      M.emit (.Errorf ("failed marshall SSQL statement: " ++ err.Error))
      pure (Slice.nil, some err)
    | .ok qry => do
      let data := env.FlattenClusterQuery qry hosts loc
      let bufPtr0 ← M.liftE (data.addrOf 0)
      let bufPtr ←
        if transientBuf.len > 0 then M.liftE (transientBuf.addrOf 0) else pure bufPtr0
      let buf ← M.liftE (data.addrOf 0)
      M.emit (.query_cluster ptr buf (toCUInt data.len) (toCULong transientID) bufPtr
        (toCUInt transientBuf.len))
      let ba := env.query_cluster ptr buf (toCUInt data.len) (toCULong transientID) bufPtr
        (toCUInt transientBuf.len)
      let data ←
        if ba.ptr ≠ 0 then do
          M.emit (.Noticef ("start to deref query cluster result buffer addr="
            ++ toString ba.ptr ++ ", len=" ++ toString ba.len.val))
          let data ← M.liftE (unsafeSlice ba.ptr ba.len.toInt)
          let first ← M.liftE (data.addrOf 0)
          M.emit (.Noticef ("done to deref query cluster result buffer addr="
            ++ toString first ++ ", len=" ++ toString data.len))
          pure data
        else do
          M.emit (.Noticef ("statement " ++ env.stmtString stmt ++ " returns empty data"))
          pure (⟨env.zerobase, 0, 0⟩ : Slice)
      let err ← decodeErr env ba.err none
      pure (data, err)

/-- Source `bridge.go:76`: no hosts (`nil`) and locality flag 0. -/
def QueryLocal (env : Env Stmt Entity) (dir : String) (stmt : Stmt) (transientID : Nat)
    (transientBuf : Slice) : M (Slice × Option GoError) :=
  QueryCluster env dir stmt [] 0 transientID transientBuf

/-- Source `callback/callback.go:16`: the handle is looked up, both views are
built, then the predicate runs. -/
def send_to_go (f : Nat) (hsz : Int) (header : Nat) (bsz : Int) (body : Nat) : M Bool := do
  M.emit (.send_to_go f hsz header bsz body)
  let cb ← Handle.Value f
  let hs ← M.liftE (unsafeSlice header hsz)
  let bs ← M.liftE (unsafeSlice body bsz)
  match cb.Send with
  | none => M.panic .nilDereference
  | some send => do
    let stop := send hs bs
    M.emit (.sent stop)
    pure stop

/-- One native `exchange` call: every re-entry of the engine goes through
`send_to_go` with the handle it was given. -/
def runExchange : ExchangeRun → Nat → M ExchangeFlightData
  | .ret efd, _ => pure efd
  | .call hsz header bsz body k, h => do
    let stop ← send_to_go h hsz header bsz body
    runExchange (k stop) h

/-- Decoding of one of the two buffers of the exchange result.
```go
if efd.header.ptr != nil {
	header = unsafe.Slice((*byte)(efd.header.ptr), int(efd.header.len))
}
```
-/
def decodeBuffer (b : Buffer) : M Slice :=
  if b.ptr ≠ 0 then M.liftE (unsafeSlice b.ptr b.len.toInt) else pure Slice.nil

/-- Source `bridge.go:118`. -/
def Exchange (env : Env Stmt Entity) (dir : String) (exchange : Option FlightData)
    (transientID : Nat) (data : Slice) (streaming : Bool)
    (onFlightData : Option (Slice → Slice → Bool)) :
    M (Option FlightData × Option GoError) := do
  let ptr ← C.CString env dir
  M.defer (C.free ptr) <|
    match exchange with
    | none => M.panic .nilDereference
    | some ex =>
      if ex.AppMetadata.len ≠ 1 then
        pure (none, some (.errorsNew
          ("exchange flight AppMetadata should contain one byte, but length is "
            ++ toString ex.AppMetadata.len)))
      else if ex.DataBody.len = 0 then
        pure (none, some (.errorsNew "exchange flight data is missing SSQL statement"))
      else do
        let h ← NewHandle ⟨onFlightData⟩
        M.defer (Handle.Delete h) do
          let dataPtr0 ← M.liftE (ex.DataBody.addrOf 0)
          let dataPtr ← if data.len > 0 then M.liftE (data.addrOf 0) else pure dataPtr0
          let part ← M.liftE (ex.AppMetadata.addrOf 0)
          let stmtPtr ← M.liftE (ex.DataBody.addrOf 0)
          M.emit (.exchange ptr (env.mem part) stmtPtr (toCUInt ex.DataBody.len)
            (toCULong transientID) dataPtr (toCUInt data.len) h streaming)
          let efd ← runExchange (env.exchange ptr (env.mem part) stmtPtr
            (toCUInt ex.DataBody.len) (toCULong transientID) dataPtr (toCUInt data.len) h
            streaming) h
          let header ← decodeBuffer efd.header
          let body ← decodeBuffer efd.body
          let err ← decodeErr env efd.err none
          pure (some ⟨header, Slice.nil, body⟩, err)

/-- Source `bridge.go:180`. -/
def BuildIndexFromColumnizedEntities (env : Env Stmt Entity) (entities : List Entity) :
    M (Slice × Option GoError) :=
  let data := env.FlattenColumnizedEntities entities
  if data.len = 0 then pure (Slice.nil, some .ErrFlattenColumnedEntity)
  else do
    let buf ← M.liftE (data.addrOf 0)
    M.emit (.build_index buf (toCUInt data.len))
    let ba := env.build_index buf (toCUInt data.len)
    if ba.err ≠ 0 then do
      let err := GoError.errorsNew (env.GoString ba.err)
      C.free ba.err
      pure (Slice.nil, some err)
    else if ba.len = 0 then pure (Slice.nil, some .ErrIndexEntity)
    else do
      let s ← M.liftE (unsafeSlice ba.ptr ba.len.toInt)
      pure (s, none)

end Operations

/-! ## Vocabulary of the statements -/

/-- Creation or deletion of a callback handle. -/
def Event.isHandleEvent : Event → Bool
  | .NewHandle _ => true
  | .Delete _ => true
  | _ => false

/-- Call of one of the five entry points of the native engine. -/
def Event.isNativeCall : Event → Bool
  | .add_quick_filter .. => true
  | .ssql_arrow_schema .. => true
  | .query_cluster .. => true
  | .exchange .. => true
  | .build_index .. => true
  | _ => false

/-- Call of `C.free`. -/
def Event.isFree : Event → Bool
  | .free _ => true
  | _ => false

/-- The view that the bridge builds from a `{pointer, length}` pair of the
engine: `absent` for a null pointer, `unsafe.Slice(ptr, int(len))` otherwise. -/
def viewOf (ptr : Nat) (len : CULong) (absent : Slice) : Except Panic Slice :=
  if ptr ≠ 0 then unsafeSlice ptr len.toInt else .ok absent

/-- Invariant of the `runtime/cgo` handle table: every live handle was issued
by `NewHandle`, hence is at most `handleIdx`. -/
def World.WF (w : World) : Prop := ∀ e ∈ w.handles, e.1 ≤ w.handleIdx

/-- A computation that leaves the handle table alone and records no handle
event. -/
def Quiet {α : Type} (m : M α) : Prop :=
  ∀ w, ∃ mid, (m w).2.trace = w.trace ++ mid ∧ (∀ e ∈ mid, Event.isHandleEvent e = false)
    ∧ (m w).2.handles = w.handles ∧ (m w).2.handleIdx = w.handleIdx

section Vocabulary

variable {Stmt Entity : Type}

/-- The descriptor `ba` that `build_index` returns to
`BuildIndexFromColumnizedEntities` (`bridge.go:187`). -/
def buildIndexResult (env : Env Stmt Entity) (entities : List Entity) : ByteArray :=
  env.build_index (env.FlattenColumnizedEntities entities).ptr
    (toCUInt (env.FlattenColumnizedEntities entities).len)

/-- The descriptor `ba` that `query_cluster` returns to `QueryCluster`
(`bridge.go:99`) for the serialized statement `qry`. -/
def queryClusterResult (env : Env Stmt Entity) (dir : String) (qry : Slice)
    (hosts : List String) (loc : Int) (transientID : Nat) (transientBuf : Slice) : ByteArray :=
  env.query_cluster (env.CString dir) (env.FlattenClusterQuery qry hosts loc).ptr
    (toCUInt (env.FlattenClusterQuery qry hosts loc).len) (toCULong transientID)
    (if transientBuf.len > 0 then transientBuf.ptr else (env.FlattenClusterQuery qry hosts loc).ptr)
    (toCUInt transientBuf.len)

/-- The event of the native call `C.exchange(...)` of `Exchange`
(`bridge.go:142`) with the handle `h`. -/
def exchangeCall (env : Env Stmt Entity) (dir : String) (ex : FlightData) (transientID : Nat)
    (data : Slice) (streaming : Bool) (h : Nat) : Event :=
  .exchange (env.CString dir) (env.mem ex.AppMetadata.ptr) ex.DataBody.ptr
    (toCUInt ex.DataBody.len) (toCULong transientID)
    (if data.len > 0 then data.ptr else ex.DataBody.ptr) (toCUInt data.len) h streaming

/-- What the engine does during that call. -/
def exchangeEngine (env : Env Stmt Entity) (dir : String) (ex : FlightData) (transientID : Nat)
    (data : Slice) (streaming : Bool) (h : Nat) : ExchangeRun :=
  env.exchange (env.CString dir) (env.mem ex.AppMetadata.ptr) ex.DataBody.ptr
    (toCUInt ex.DataBody.len) (toCULong transientID)
    (if data.len > 0 then data.ptr else ex.DataBody.ptr) (toCUInt data.len) h streaming

/-- The error pointer `e` that `add_quick_filter` returns to `AddQuickFilter`
(`bridge.go:44`). -/
def addQuickFilterResult (env : Env Stmt Entity) (flightName : String) (id : Nat)
    (data : Slice) : Nat :=
  env.add_quick_filter (env.CString flightName) (toCULong id) data.ptr (toCUInt data.len)

/-- The descriptor `ba` that `ssql_arrow_schema` returns to
`StatementToArrowSchema` (`bridge.go:60`) for the serialized statement. -/
def arrowSchemaResult (env : Env Stmt Entity) (data : Slice) : ByteArray :=
  env.ssql_arrow_schema data.ptr (toCUInt data.len)

/-- The error value and the release that the decoding of the error pointer
`e` yields: for a non-null pointer its string as an error and one `C.free`,
for a null pointer no error and no release. -/
def decodedErr (env : Env Stmt Entity) (e : Nat) : Option GoError × List Event :=
  if e ≠ 0 then (some (.errorsNew (env.GoString e)), [.free e]) else (none, [])

/-- The world in which the native `exchange` call of an accepted request
runs: `C.CString`, `cgo.NewHandle` and the call itself are on the trace, and
the new handle holds the supplied predicate. -/
def exchangeWorld (env : Env Stmt Entity) (w : World) (dir : String) (ex : FlightData)
    (transientID : Nat) (data : Slice) (streaming : Bool)
    (onFlightData : Option (Slice → Slice → Bool)) : World :=
  { trace := w.trace ++ [.CString dir (env.CString dir), .NewHandle (w.handleIdx + 1),
      exchangeCall env dir ex transientID data streaming (w.handleIdx + 1)],
    handleIdx := w.handleIdx + 1,
    handles := (w.handleIdx + 1, ⟨onFlightData⟩) :: w.handles }

end Vocabulary

/-! ## Concrete runs -/

/-- A buffer of `2^32` bytes whose length prefix is `0xFFFFFFFC`. -/
def hugeMem : Mem := fun a => if a = 4096 then 252 else 255

/-- See `hugeMem`. -/
def hugeData : Slice := ⟨4096, 2 ^ 32, 0⟩

/-- Eight bytes at address 100: prefix 2, then `7 7 7 7`. -/
def smallMem : Mem := fun a => if a = 100 then 2 else if a < 104 then 0 else 7

/-- See `smallMem`. -/
def smallData : Slice := ⟨100, 8, 0⟩

/-- Three bytes of `smallMem`, with room for five more in the backing array. -/
def shortData : Slice := ⟨100, 3, 5⟩

/-- The initial world: nothing happened, no handle is live. -/
def World.init : World := ⟨[], 0, []⟩

/-- Collaborators with fixed answers: every native entry point reports
"no data, no error". -/
def stubEnv : Env Unit Unit where
  CString := fun _ => 4096
  GoString := fun _ => "engine failure"
  zerobase := 64
  mem := fun _ => 1
  Marshal := fun _ => .ok ⟨8192, 3, 0⟩
  stmtString := fun _ => "stmt"
  FlattenClusterQuery := fun qry _ _ => ⟨12288, qry.len + 9, 0⟩
  FlattenColumnizedEntities := fun es => ⟨16384, 16 * es.length, 0⟩
  add_quick_filter := fun _ _ _ _ => 0
  ssql_arrow_schema := fun _ _ => ⟨0, 0, 0⟩
  query_cluster := fun _ _ _ _ _ _ => ⟨0, 0, 0⟩
  exchange := fun _ _ _ _ _ _ _ _ _ => .ret ⟨⟨0, 0⟩, ⟨0, 0⟩, 0⟩
  build_index := fun _ _ => ⟨0, 0, 0⟩

/-- An engine whose `build_index` reports a null pointer, length 5, no error. -/
def nullWithLengthEnv : Env Unit Unit :=
  { stubEnv with build_index := fun _ _ => ⟨0, 5, 0⟩ }

/-- An engine whose `build_index` reports a non-null pointer, length 0, no
error. -/
def zeroLengthIndexEnv : Env Unit Unit :=
  { stubEnv with build_index := fun _ _ => ⟨20480, 0, 0⟩ }

/-- An engine whose `build_index` reports ten bytes at 20480, no error. -/
def tenByteIndexEnv : Env Unit Unit :=
  { stubEnv with build_index := fun _ _ => ⟨20480, 10, 0⟩ }

/-- An engine whose `query_cluster` reports a non-null data pointer with
length 0 together with the error string at 24576. -/
def emptyViewWithErrorEnv : Env Unit Unit :=
  { stubEnv with query_cluster := fun _ _ _ _ _ _ => ⟨20480, 0, 24576⟩ }

/-- An engine whose `query_cluster` reports a non-null data pointer with
length 0 together with the error string at 32768. -/
def emptyViewEnv : Env Unit Unit :=
  { stubEnv with query_cluster := fun _ _ _ _ _ _ => ⟨28672, 0, 32768⟩ }

/-- A serializer that yields zero bytes. -/
def emptyStatementEnv : Env Unit Unit :=
  { stubEnv with Marshal := fun _ => .ok ⟨8192, 0, 0⟩ }

/-- An engine run with `n` re-entries (header at `1000 + i`, body at
`2000 + i`, whatever the predicate answers) before it returns `efd`. -/
def callsThen : Nat → Nat → ExchangeFlightData → ExchangeRun
  | 0, _, efd => .ret efd
  | n + 1, i, efd => .call 4 (1000 + i) 8 (2000 + i) (fun _ => callsThen n (i + 1) efd)

/-- An engine whose `exchange` re-enters Go five times and then fails with
the error string at 24576. -/
def fiveCallbacksEnv : Env Unit Unit :=
  { stubEnv with exchange := fun _ _ _ _ _ _ _ _ _ => callsThen 5 0 ⟨⟨0, 0⟩, ⟨0, 0⟩, 24576⟩ }

/-- A predicate that reports failure on the third header. -/
def stopOnThird : Slice → Slice → Bool := fun header _ => header.ptr == 1002

/-- A well-formed exchange request: one discriminator byte, a six-byte
statement. -/
def goodRequest : FlightData := ⟨Slice.nil, ⟨300, 1, 0⟩, ⟨400, 6, 0⟩⟩

/-- An exchange request with two discriminator bytes. -/
def twoByteRequest : FlightData := ⟨Slice.nil, ⟨300, 2, 0⟩, ⟨400, 6, 0⟩⟩

/-- An exchange request with an empty statement body. -/
def emptyBodyRequest : FlightData := ⟨Slice.nil, ⟨300, 1, 0⟩, ⟨400, 0, 0⟩⟩

/-! ## Lemmas -/

section Lemmas

variable {Stmt Entity : Type}

theorem le32_lt (mem : Mem) (p : Nat) : le32 mem p < 2 ^ 32 := by
  unfold le32
  have h0 := (mem p).isLt
  have h1 := (mem (p + 1)).isLt
  have h2 := (mem (p + 2)).isLt
  have h3 := (mem (p + 3)).isLt
  omega

/-- The bytes of a window `[p + a, p + a + n)` inside a view of `m` bytes at `p`. -/
theorem bytes_window (mem : Mem) (p a n m e e2 : Nat) (h : a + n ≤ m) :
    Slice.bytes mem ⟨p + a, n, e⟩ = ((Slice.bytes mem ⟨p, m, e2⟩).drop a).take n := by
  apply List.ext_getElem
  · simp [Slice.bytes]; omega
  · intro k h1 h2
    simp [Slice.bytes, Nat.add_assoc]

/-- The split as one decision on the wrapped sum `sz`. -/
theorem split_eq (mem : Mem) (data : Slice) (sz : Nat)
    (hsz : sz = (le32 mem data.ptr + 4) % 4294967296) :
    SplitIndexQuickFilter mem data =
      if 4 ≤ data.cap then
        if sz ≤ data.cap then
          if 4 ≤ sz then
            if sz ≤ data.len then
              .ok (⟨data.ptr + 4, sz - 4, data.cap - sz⟩,
                ⟨data.ptr + sz, data.len - sz, data.extra⟩)
            else .error (.sliceBounds sz data.len data.len)
          else .error (.sliceBounds 4 sz sz)
        else .error (.sliceBounds 4 sz data.cap)
      else .error (.sliceBounds 0 4 data.cap) := by
  subst hsz
  simp only [SplitIndexQuickFilter, Slice.slice, Slice.sliceFrom, LittleEndian.Uint32,
    bind, Except.bind, pure, Except.pure]
  split_ifs <;> first | (exfalso; omega) | simp [*]

theorem bind_run {α β : Type} (m : M α) (f : α → M β) (w : World) :
    (m >>= f) w = match m w with
      | (.ok a, w1) => f a w1
      | (.error p, w1) => (.error p, w1) := rfl

theorem pure_run {α : Type} (a : α) (w : World) : (pure a : M α) w = (.ok a, w) := rfl

theorem quiet_pure {α : Type} (a : α) : Quiet (pure a : M α) := by
  intro w; exact ⟨[], by simp [pure_run]⟩

theorem quiet_raise {α : Type} (p : Panic) : Quiet (M.panic p : M α) := by
  intro w; exact ⟨[], by simp [M.panic]⟩

theorem quiet_liftE {α : Type} (x : Except Panic α) : Quiet (M.liftE x) := by
  cases x
  · exact quiet_raise _
  · exact quiet_pure _

theorem quiet_emit (e : Event) (h : Event.isHandleEvent e = false) : Quiet (M.emit e) := by
  intro w; exact ⟨[e], by simp [M.emit, h]⟩

theorem quiet_bind {α β : Type} (m : M α) (f : α → M β) (hm : Quiet m)
    (hf : ∀ a, Quiet (f a)) : Quiet (m >>= f) := by
  intro w
  obtain ⟨mid, h1, h2, h3, h4⟩ := hm w
  rw [bind_run]
  rcases hmw : m w with ⟨r, w1⟩
  rw [hmw] at h1 h3 h4
  simp only at h1 h3 h4
  cases r with
  | error p => exact ⟨mid, h1, h2, h3, h4⟩
  | ok a =>
    obtain ⟨mid2, g1, g2, g3, g4⟩ := hf a w1
    refine ⟨mid ++ mid2, ?_, ?_, ?_, ?_⟩
    · simp only [g1, h1, List.append_assoc]
    · intro e he
      rcases List.mem_append.mp he with h | h
      · exact h2 e h
      · exact g2 e h
    · simp only [g3, h3]
    · simp only [g4, h4]

theorem quiet_value (h : Nat) : Quiet (Handle.Value h) := by
  intro w
  refine ⟨[], ?_⟩
  unfold Handle.Value
  split <;> simp

theorem quiet_send_to_go (f : Nat) (hsz : Int) (header : Nat) (bsz : Int) (body : Nat) :
    Quiet (send_to_go f hsz header bsz body) := by
  unfold send_to_go
  refine quiet_bind _ _ (quiet_emit _ rfl) fun _ => ?_
  refine quiet_bind _ _ (quiet_value _) fun cb => ?_
  refine quiet_bind _ _ (quiet_liftE _) fun hs => ?_
  refine quiet_bind _ _ (quiet_liftE _) fun bs => ?_
  cases cb.Send with
  | none => exact quiet_raise _
  | some send => exact quiet_bind _ _ (quiet_emit _ rfl) fun _ => quiet_pure _

/-- Whatever the engine does during the call, and whether or not a re-entry
panics, the handle table is as before and no handle event is recorded. -/
theorem quiet_runExchange (run : ExchangeRun) (h : Nat) : Quiet (runExchange run h) := by
  induction run with
  | ret efd => exact quiet_pure _
  | call hsz header bsz body k ih =>
    unfold runExchange
    exact quiet_bind _ _ (quiet_send_to_go _ _ _ _ _) fun stop => ih stop

theorem filter_fresh (l : List (Nat × Callback)) (idx : Nat) (hwf : ∀ e ∈ l, e.1 ≤ idx) :
    l.filter (fun e => !decide (e.1 = idx + 1)) = l := by
  apply List.filter_eq_self.mpr
  intro e he
  have := hwf e he
  simp; omega

/-- The two precondition messages of `Exchange` differ for every length. -/
theorem precondition_messages_differ (n : Nat) :
    "exchange flight AppMetadata should contain one byte, but length is " ++ toString n
      ≠ "exchange flight data is missing SSQL statement" := by
  intro h
  have := congrArg String.data h
  simp at this

/-- A request whose discriminator is not one byte: the whole run. -/
theorem exchange_bad_metadata (env : Env Stmt Entity) (w : World) (dir : String)
    (ex : FlightData) (tid : Nat) (data : Slice) (streaming : Bool)
    (cb : Option (Slice → Slice → Bool)) (h : ex.AppMetadata.len ≠ 1) :
    Exchange env dir (some ex) tid data streaming cb w
      = (.ok (none, some (.errorsNew
          ("exchange flight AppMetadata should contain one byte, but length is "
            ++ toString ex.AppMetadata.len))),
         { w with trace := w.trace ++
            [.CString dir (env.CString dir), .free (env.CString dir)] }) := by
  simp [Exchange, h, pure_run, bind_run, M.defer, C.CString, C.free, M.emit]

/-- A request with one discriminator byte and an empty body: the whole run. -/
theorem exchange_empty_body (env : Env Stmt Entity) (w : World) (dir : String)
    (ex : FlightData) (tid : Nat) (data : Slice) (streaming : Bool)
    (cb : Option (Slice → Slice → Bool)) (h1 : ex.AppMetadata.len = 1)
    (h2 : ex.DataBody.len = 0) :
    Exchange env dir (some ex) tid data streaming cb w
      = (.ok (none, some (.errorsNew "exchange flight data is missing SSQL statement")),
         { w with trace := w.trace ++
            [.CString dir (env.CString dir), .free (env.CString dir)] }) := by
  simp [Exchange, h1, h2, pure_run, bind_run, M.defer, C.CString, C.free, M.emit]

/-- The view built from a reported `C.ulong` length. -/
theorem unsafeSlice_toInt (ptr : Nat) (n : CULong) :
    unsafeSlice ptr n.toInt =
      if 9223372036854775808 ≤ n.val then .error .unsafeSliceLen
      else if ptr = 0 then (if n = 0 then .ok Slice.nil else .error .unsafeSliceNilPtr)
      else .ok ⟨ptr, n.val, 0⟩ := by
  have hlt := n.isLt
  by_cases hneg : 9223372036854775808 ≤ n.val
  · have hti : n.toInt < 0 := by
      have h2 : ¬ n.val < 9223372036854775808 := by omega
      simp only [CULong.toInt, Nat.reducePow, h2, if_false]
      omega
    simp [unsafeSlice, hti, hneg]
  · have h2 : n.val < 9223372036854775808 := by omega
    have hti : n.toInt = (n.val : Int) := by
      simp only [CULong.toInt, Nat.reducePow, h2, if_true]
    have hnn : ¬ ((n.val : Int) < 0) := by omega
    have hz : ((n.val : Int) = 0) ↔ n = 0 := by
      constructor
      · intro h; exact Fin.ext (by simpa using h)
      · intro h; simp [h]
    simp only [unsafeSlice, hti, hnn, hneg, if_false, hz, Int.toNat_ofNat]

/-- What the error decoding does: a non-null error pointer is read into an
error value and released once; a null one is left alone. -/
theorem decodeErr_run (env : Env Stmt Entity) (e : Nat) (w : World) :
    decodeErr env e none w =
      (.ok (decodedErr env e).1, { w with trace := w.trace ++ (decodedErr env e).2 }) := by
  unfold decodeErr decodedErr
  split <;> simp [bind_run, pure_run, C.free, M.emit]

theorem decodedErr_isFree (env : Env Stmt Entity) (e : Nat) :
    (decodedErr env e).2.filter Event.isFree = (decodedErr env e).2 := by
  unfold decodedErr
  split <;> simp [Event.isFree]

/-- A view exists for a null pointer and for a length below `2^63`. -/
theorem viewOf_eq (ptr : Nat) (len : CULong) (absent : Slice) :
    viewOf ptr len absent =
      if ptr = 0 then .ok absent
      else if 9223372036854775808 ≤ len.val then .error .unsafeSliceLen
      else .ok ⟨ptr, len.val, 0⟩ := by
  unfold viewOf
  by_cases hp : ptr = 0
  · simp [hp]
  · simp [hp, unsafeSlice_toInt]

theorem decodeBuffer_run (b : Buffer) (w : World) :
    decodeBuffer b w = (viewOf b.ptr b.len Slice.nil, w) := by
  unfold decodeBuffer viewOf
  split
  · cases unsafeSlice b.ptr b.len.toInt <;> rfl
  · rfl

/-- The whole run of `AddQuickFilter` on non-empty data. -/
theorem AddQuickFilter_run (env : Env Stmt Entity) (w : World) (flightName : String)
    (id : Nat) (data : Slice) (hd : 0 < data.len) :
    AddQuickFilter env flightName id data w =
      (.ok (decodedErr env (addQuickFilterResult env flightName id data)).1,
       { w with trace := w.trace ++
          [.CString flightName (env.CString flightName),
           .add_quick_filter (env.CString flightName) (toCULong id) data.ptr
             (toCUInt data.len)]
          ++ (decodedErr env (addQuickFilterResult env flightName id data)).2
          ++ [.free (env.CString flightName)] }) := by
  simp [AddQuickFilter, bind_run, pure_run, C.CString, M.emit, M.defer, M.liftE,
    Slice.addrOf, hd, decodeErr_run, C.free, addQuickFilterResult]

/-- The whole run of `StatementToArrowSchema` on a statement with a non-empty
serialization. -/
theorem StatementToArrowSchema_run (env : Env Stmt Entity) (w : World) (stmt : Stmt)
    (data : Slice) (hm : env.Marshal stmt = .ok data) (hd : 0 < data.len) :
    StatementToArrowSchema env stmt w =
      match viewOf (arrowSchemaResult env data).ptr (arrowSchemaResult env data).len
          Slice.nil with
      | .error p =>
        (.error p, { w with trace := w.trace ++
          [.ssql_arrow_schema data.ptr (toCUInt data.len)] })
      | .ok view =>
        (.ok (view, (decodedErr env (arrowSchemaResult env data).err).1),
         { w with trace := w.trace ++ [.ssql_arrow_schema data.ptr (toCUInt data.len)]
            ++ (if (arrowSchemaResult env data).ptr ≠ 0 then []
                else [.Noticef ("converting to arrow schema statement "
                  ++ env.stmtString stmt ++ " returns empty data")])
            ++ (decodedErr env (arrowSchemaResult env data).err).2 }) := by
  unfold arrowSchemaResult
  obtain ⟨ba, hba⟩ : ∃ ba, env.ssql_arrow_schema data.ptr (toCUInt data.len) = ba := ⟨_, rfl⟩
  rw [hba]
  by_cases hp : ba.ptr = 0
  · simp [StatementToArrowSchema, hm, bind_run, pure_run, M.emit, M.liftE, Slice.addrOf, hd,
      decodeErr_run, hba, hp, viewOf]
  · cases hv : viewOf ba.ptr ba.len Slice.nil <;>
    simp [viewOf, hp] at hv <;>
    simp [StatementToArrowSchema, hm, bind_run, pure_run, M.emit, M.liftE, Slice.addrOf, hd,
      decodeErr_run, hba, hp, hv, M.panic]

/-- The whole run of `BuildIndexFromColumnizedEntities` on a non-empty batch. -/
theorem BuildIndex_run (env : Env Stmt Entity) (w : World) (entities : List Entity)
    (hd : 0 < (env.FlattenColumnizedEntities entities).len) :
    BuildIndexFromColumnizedEntities env entities w =
      if (buildIndexResult env entities).err ≠ 0 then
        (.ok (Slice.nil, (decodedErr env (buildIndexResult env entities).err).1),
         { w with trace := w.trace ++
            [.build_index (env.FlattenColumnizedEntities entities).ptr
              (toCUInt (env.FlattenColumnizedEntities entities).len)]
            ++ (decodedErr env (buildIndexResult env entities).err).2 })
      else if (buildIndexResult env entities).len = 0 then
        (.ok (Slice.nil, some .ErrIndexEntity),
         { w with trace := w.trace ++
            [.build_index (env.FlattenColumnizedEntities entities).ptr
              (toCUInt (env.FlattenColumnizedEntities entities).len)] })
      else
        (((unsafeSlice (buildIndexResult env entities).ptr
            (buildIndexResult env entities).len.toInt).map fun s => (s, none)),
         { w with trace := w.trace ++
            [.build_index (env.FlattenColumnizedEntities entities).ptr
              (toCUInt (env.FlattenColumnizedEntities entities).len)] }) := by
  have hd' : (env.FlattenColumnizedEntities entities).len ≠ 0 := Nat.pos_iff_ne_zero.mp hd
  unfold buildIndexResult
  obtain ⟨ba, hba⟩ : ∃ ba, env.build_index (env.FlattenColumnizedEntities entities).ptr
    (toCUInt (env.FlattenColumnizedEntities entities).len) = ba := ⟨_, rfl⟩
  rw [hba]
  by_cases he : ba.err = 0
  · by_cases h0 : ba.len = 0
    · simp [BuildIndexFromColumnizedEntities, hd, hd', bind_run, pure_run, M.emit, M.liftE,
        Slice.addrOf, hba, he, h0]
    · cases hv : unsafeSlice ba.ptr ba.len.toInt <;>
      simp [BuildIndexFromColumnizedEntities, hd, hd', bind_run, pure_run, M.emit, M.liftE,
        Slice.addrOf, hba, he, h0, hv, M.panic, Except.map]
  · simp [BuildIndexFromColumnizedEntities, hd, hd', bind_run, pure_run, M.emit, M.liftE,
      Slice.addrOf, hba, he, decodedErr, C.free]

/-- The run of `QueryCluster` on a statement that serializes and a non-empty
flattened request: its result, and the releases it performs. -/
theorem QueryCluster_run (env : Env Stmt Entity) (w : World) (dir : String) (stmt : Stmt)
    (hosts : List String) (loc : Int) (transientID : Nat) (transientBuf : Slice) (qry : Slice)
    (hm : env.Marshal stmt = .ok qry)
    (hd : 0 < (env.FlattenClusterQuery qry hosts loc).len) :
    ((QueryCluster env dir stmt hosts loc transientID transientBuf w).1,
      (QueryCluster env dir stmt hosts loc transientID transientBuf w).2.trace.filter
        Event.isFree) =
      match viewOf (queryClusterResult env dir qry hosts loc transientID transientBuf).ptr
          (queryClusterResult env dir qry hosts loc transientID transientBuf).len
          ⟨env.zerobase, 0, 0⟩ with
      | .error p => (.error p, w.trace.filter Event.isFree ++ [.free (env.CString dir)])
      | .ok view =>
        if (queryClusterResult env dir qry hosts loc transientID transientBuf).ptr ≠ 0
            ∧ view.len = 0 then
          (.error (.indexOutOfRange 0 0),
            w.trace.filter Event.isFree ++ [.free (env.CString dir)])
        else
          (.ok (view, (decodedErr env
              (queryClusterResult env dir qry hosts loc transientID transientBuf).err).1),
            w.trace.filter Event.isFree
              ++ (decodedErr env
                (queryClusterResult env dir qry hosts loc transientID transientBuf).err).2
              ++ [.free (env.CString dir)]) := by
  have hd' : (env.FlattenClusterQuery qry hosts loc).len ≠ 0 := Nat.pos_iff_ne_zero.mp hd
  have key : ∀ (bufPtr : Nat) (ba : ByteArray),
      env.query_cluster (env.CString dir) (env.FlattenClusterQuery qry hosts loc).ptr
        (toCUInt (env.FlattenClusterQuery qry hosts loc).len) (toCULong transientID) bufPtr
        (toCUInt transientBuf.len) = ba →
      bufPtr = (if transientBuf.len > 0 then transientBuf.ptr
        else (env.FlattenClusterQuery qry hosts loc).ptr) →
      ((QueryCluster env dir stmt hosts loc transientID transientBuf w).1,
        (QueryCluster env dir stmt hosts loc transientID transientBuf w).2.trace.filter
          Event.isFree) =
      match viewOf ba.ptr ba.len ⟨env.zerobase, 0, 0⟩ with
      | .error p => (.error p, w.trace.filter Event.isFree ++ [.free (env.CString dir)])
      | .ok view =>
        if ba.ptr ≠ 0 ∧ view.len = 0 then
          (.error (.indexOutOfRange 0 0),
            w.trace.filter Event.isFree ++ [.free (env.CString dir)])
        else
          (.ok (view, (decodedErr env ba.err).1),
            w.trace.filter Event.isFree ++ (decodedErr env ba.err).2
              ++ [.free (env.CString dir)]) := by
    intro bufPtr ba hba hbuf
    have hfree := decodedErr_isFree env ba.err
    by_cases ht : 0 < transientBuf.len
    · simp only [ht, if_true] at hbuf
      subst hbuf
      by_cases hp : ba.ptr = 0
      · simp [QueryCluster, hm, bind_run, pure_run, M.emit, M.liftE, Slice.addrOf, hd, hd', ht,
          decodeErr_run, hba, hp, viewOf, M.defer, C.CString, C.free, Event.isFree, hfree]
      · cases hv : viewOf ba.ptr ba.len ⟨env.zerobase, 0, 0⟩ with
        | error p =>
          simp [viewOf, hp] at hv
          simp [QueryCluster, hm, bind_run, pure_run, M.emit, M.liftE, Slice.addrOf, hd, hd',
            ht, decodeErr_run, hba, hp, hv, M.panic, M.defer, C.CString, C.free, Event.isFree]
        | ok view =>
          simp [viewOf, hp] at hv
          by_cases hl : view.len = 0
          · simp [QueryCluster, hm, bind_run, pure_run, M.emit, M.liftE, Slice.addrOf, hd, hd',
              ht, decodeErr_run, hba, hp, hv, hl, M.panic, M.defer, C.CString, C.free,
              Event.isFree]
          · have hl' : 0 < view.len := Nat.pos_of_ne_zero hl
            simp [QueryCluster, hm, bind_run, pure_run, M.emit, M.liftE, Slice.addrOf, hd, hd',
              ht, decodeErr_run, hba, hp, hv, hl, hl', M.panic, M.defer, C.CString, C.free,
              Event.isFree, hfree]
    · simp only [ht, if_false] at hbuf
      subst hbuf
      by_cases hp : ba.ptr = 0
      · simp [QueryCluster, hm, bind_run, pure_run, M.emit, M.liftE, Slice.addrOf, hd, hd', ht,
          decodeErr_run, hba, hp, viewOf, M.defer, C.CString, C.free, Event.isFree, hfree]
      · cases hv : viewOf ba.ptr ba.len ⟨env.zerobase, 0, 0⟩ with
        | error p =>
          simp [viewOf, hp] at hv
          simp [QueryCluster, hm, bind_run, pure_run, M.emit, M.liftE, Slice.addrOf, hd, hd',
            ht, decodeErr_run, hba, hp, hv, M.panic, M.defer, C.CString, C.free, Event.isFree]
        | ok view =>
          simp [viewOf, hp] at hv
          by_cases hl : view.len = 0
          · simp [QueryCluster, hm, bind_run, pure_run, M.emit, M.liftE, Slice.addrOf, hd, hd',
              ht, decodeErr_run, hba, hp, hv, hl, M.panic, M.defer, C.CString, C.free,
              Event.isFree]
          · have hl' : 0 < view.len := Nat.pos_of_ne_zero hl
            simp [QueryCluster, hm, bind_run, pure_run, M.emit, M.liftE, Slice.addrOf, hd, hd',
              ht, decodeErr_run, hba, hp, hv, hl, hl', M.panic, M.defer, C.CString, C.free,
              Event.isFree, hfree]
  exact key _ _ rfl rfl

/-- An accepted `Exchange` call, given what the native call did. -/
theorem exchange_accepted (env : Env Stmt Entity) (w : World) (dir : String)
    (ex : FlightData) (tid : Nat) (data : Slice) (streaming : Bool)
    (cb : Option (Slice → Slice → Bool)) (hwf : w.WF)
    (h1 : ex.AppMetadata.len = 1) (h2 : ex.DataBody.len ≠ 0)
    (r : Except Panic ExchangeFlightData) (w2 : World)
    (hrun : runExchange (exchangeEngine env dir ex tid data streaming (w.handleIdx + 1))
      (w.handleIdx + 1) (exchangeWorld env w dir ex tid data streaming cb) = (r, w2)) :
    Exchange env dir (some ex) tid data streaming cb w =
      match r with
      | .error p =>
        (.error p, ⟨w2.trace ++ [.Delete (w.handleIdx + 1), .free (env.CString dir)],
          w.handleIdx + 1, w.handles⟩)
      | .ok efd =>
        match viewOf efd.header.ptr efd.header.len Slice.nil,
          viewOf efd.body.ptr efd.body.len Slice.nil with
        | .ok header, .ok body =>
          (.ok (some ⟨header, Slice.nil, body⟩, (decodedErr env efd.err).1),
            ⟨w2.trace ++ (decodedErr env efd.err).2
              ++ [.Delete (w.handleIdx + 1), .free (env.CString dir)],
              w.handleIdx + 1, w.handles⟩)
        | .error p, _ =>
          (.error p, ⟨w2.trace ++ [.Delete (w.handleIdx + 1), .free (env.CString dir)],
            w.handleIdx + 1, w.handles⟩)
        | .ok _, .error p =>
          (.error p, ⟨w2.trace ++ [.Delete (w.handleIdx + 1), .free (env.CString dir)],
            w.handleIdx + 1, w.handles⟩) := by
  have hd : 0 < ex.DataBody.len := Nat.pos_of_ne_zero h2
  have hf := filter_fresh w.handles w.handleIdx hwf
  obtain ⟨mid, -, -, q3, q4⟩ := quiet_runExchange
    (exchangeEngine env dir ex tid data streaming (w.handleIdx + 1)) (w.handleIdx + 1)
    (exchangeWorld env w dir ex tid data streaming cb)
  rw [hrun] at q3 q4
  simp only [exchangeWorld] at q3 q4
  simp only [exchangeWorld, exchangeEngine, exchangeCall] at hrun
  by_cases hdl : 0 < data.len
  · simp only [hdl, if_true] at hrun
    cases r with
    | error p =>
      simp [Exchange, bind_run, pure_run, M.defer, C.CString, C.free, M.emit, h1, h2, hd, hdl,
        NewHandle, M.liftE, Slice.addrOf, hf, Handle.Delete, hrun, q3, q4]
    | ok efd =>
      cases hh : viewOf efd.header.ptr efd.header.len Slice.nil <;>
      cases hb : viewOf efd.body.ptr efd.body.len Slice.nil <;>
      simp [Exchange, bind_run, pure_run, M.defer, C.CString, C.free, M.emit, h1, h2, hd, hdl,
        NewHandle, M.liftE, Slice.addrOf, hf, Handle.Delete, hrun, q3, q4, decodeBuffer_run,
        decodeErr_run, hh, hb]
  · simp only [hdl, if_false] at hrun
    cases r with
    | error p =>
      simp [Exchange, bind_run, pure_run, M.defer, C.CString, C.free, M.emit, h1, h2, hd, hdl,
        NewHandle, M.liftE, Slice.addrOf, hf, Handle.Delete, hrun, q3, q4]
    | ok efd =>
      cases hh : viewOf efd.header.ptr efd.header.len Slice.nil <;>
      cases hb : viewOf efd.body.ptr efd.body.len Slice.nil <;>
      simp [Exchange, bind_run, pure_run, M.defer, C.CString, C.free, M.emit, h1, h2, hd, hdl,
        NewHandle, M.liftE, Slice.addrOf, hf, Handle.Delete, hrun, q3, q4, decodeBuffer_run,
        decodeErr_run, hh, hb]

end Lemmas

/-! ## Claims -/

section Claims

variable {Stmt Entity : Type}

/-- Claim C1, as stated, fails: a buffer of `2^32` bytes whose prefix decodes
to `L = 2^32 - 4` satisfies `4 + L <= len(buffer)`, but the `uint32` sum
`L + 4` wraps to 0 and `data[4:0]` panics instead of returning the two
segments. -/
theorem SplitIndexQuickFilter_wraps_on_huge_buffer :
    4 ≤ hugeData.len ∧ 4 + le32 hugeMem hugeData.ptr ≤ hugeData.len ∧
      SplitIndexQuickFilter hugeMem hugeData = .error (.sliceBounds 4 0 0) := by
  decide

/-- Claim C1, amended: for every buffer of length at least 4 whose first 4
bytes little-endian-decode to `L` with `4 + L <= len(buffer)` and
`4 + L < 2^32`, `SplitIndexQuickFilter` returns `(q, i)` with
`q = buffer[4 .. 4+L)` (so `len(q) = L`) and `i = buffer[4+L .. len(buffer))`,
and `q ++ i` is the buffer without its first 4 bytes. -/
theorem SplitIndexQuickFilter_partitions_tail (mem : Mem) (data : Slice)
    (h4 : 4 ≤ data.len) (hL : 4 + le32 mem data.ptr ≤ data.len)
    (hw : 4 + le32 mem data.ptr < 2 ^ 32) :
    ∃ q i, SplitIndexQuickFilter mem data = .ok (q, i)
      ∧ q.len = le32 mem data.ptr
      ∧ q.bytes mem = ((data.bytes mem).drop 4).take (le32 mem data.ptr)
      ∧ i.bytes mem = (data.bytes mem).drop (4 + le32 mem data.ptr)
      ∧ q.bytes mem ++ i.bytes mem = (data.bytes mem).drop 4 := by
  obtain ⟨p, n, e⟩ := data
  simp only at h4 hL hw
  have hsz : le32 mem p + 4 = (le32 mem p + 4) % 4294967296 :=
    (Nat.mod_eq_of_lt (by omega)).symm
  have hq : Slice.bytes mem ⟨p + 4, le32 mem p, n + e - (le32 mem p + 4)⟩
      = ((Slice.bytes mem ⟨p, n, e⟩).drop 4).take (le32 mem p) :=
    bytes_window mem p 4 (le32 mem p) n _ e (by omega)
  have hi : Slice.bytes mem ⟨p + (le32 mem p + 4), n - (le32 mem p + 4), e⟩
      = (Slice.bytes mem ⟨p, n, e⟩).drop (4 + le32 mem p) := by
    rw [bytes_window mem p (le32 mem p + 4) (n - (le32 mem p + 4)) n e e (by omega)]
    rw [List.take_of_length_le (by simp [Slice.bytes]), Nat.add_comm]
  refine ⟨⟨p + 4, le32 mem p, n + e - (le32 mem p + 4)⟩,
    ⟨p + (le32 mem p + 4), n - (le32 mem p + 4), e⟩, ?_, rfl, hq, hi, ?_⟩
  · have c1 : 4 ≤ n + e := by omega
    have c2 : le32 mem p + 4 ≤ n + e := by omega
    have c3 : le32 mem p + 4 ≤ n := by omega
    rw [split_eq mem _ _ hsz]
    simp [Slice.cap, c1, c2, c3]
  · rw [hq, hi, ← List.drop_drop, List.take_append_drop]

/-- Claim C1, amended, on eight bytes with prefix 2. -/
theorem SplitIndexQuickFilter_partitions_tail_witness :
    4 ≤ smallData.len ∧ 4 + le32 smallMem smallData.ptr ≤ smallData.len
      ∧ 4 + le32 smallMem smallData.ptr < 2 ^ 32
      ∧ ∃ q i, SplitIndexQuickFilter smallMem smallData = .ok (q, i)
        ∧ q.len = le32 smallMem smallData.ptr
        ∧ q.bytes smallMem
            = ((smallData.bytes smallMem).drop 4).take (le32 smallMem smallData.ptr)
        ∧ i.bytes smallMem = (smallData.bytes smallMem).drop (4 + le32 smallMem smallData.ptr)
        ∧ q.bytes smallMem ++ i.bytes smallMem = (smallData.bytes smallMem).drop 4 :=
  ⟨by decide, by decide, by decide,
    SplitIndexQuickFilter_partitions_tail smallMem smallData (by decide) (by decide)
      (by decide)⟩

/-- Claim C2: for every buffer that is shorter than 4 bytes, or whose 4-byte
little-endian prefix `L` satisfies `4 + L > len(buffer)` (the wrap of the
32-bit sum included), `SplitIndexQuickFilter` fails with a panic and returns
no pair of segments. -/
theorem SplitIndexQuickFilter_fails_out_of_bounds (mem : Mem) (data : Slice)
    (h : data.len < 4 ∨ data.len < 4 + le32 mem data.ptr) :
    (∃ p, SplitIndexQuickFilter mem data = .error p)
      ∧ ∀ q i, SplitIndexQuickFilter mem data ≠ .ok (q, i) := by
  have hlt := le32_lt mem data.ptr
  have hsz : (le32 mem data.ptr + 4) % 4294967296 < 4
      ∨ (le32 mem data.ptr + 4) % 4294967296 = le32 mem data.ptr + 4 := by omega
  rw [split_eq mem data _ rfl]
  generalize (le32 mem data.ptr + 4) % 4294967296 = sz at hsz ⊢
  split_ifs with c1 c2 c3 c4
  · exfalso; omega
  all_goals exact ⟨⟨_, rfl⟩, fun _ _ hc => by cases hc⟩

/-- Claim C2 on a three-byte buffer whose backing array holds eight bytes. -/
theorem SplitIndexQuickFilter_fails_out_of_bounds_witness :
    (shortData.len < 4 ∨ shortData.len < 4 + le32 smallMem shortData.ptr)
      ∧ (∃ p, SplitIndexQuickFilter smallMem shortData = .error p)
      ∧ ∀ q i, SplitIndexQuickFilter smallMem shortData ≠ .ok (q, i) :=
  ⟨by decide, SplitIndexQuickFilter_fails_out_of_bounds smallMem shortData (by decide)⟩

/-- Claim C3: a request whose `AppMetadata` length is not exactly 1 makes
`Exchange` return no result and a precondition error; one with exactly one
discriminator byte and an empty `DataBody` likewise; in both cases the run
consists of `C.CString(dir)` and its deferred `C.free` only, so the native
`exchange` entry point is not invoked; and the two errors have different
messages. -/
theorem Exchange_rejects_before_native_call (env : Env Stmt Entity) (w : World)
    (dir : String) (ex : FlightData) (tid : Nat) (data : Slice) (streaming : Bool)
    (cb : Option (Slice → Slice → Bool)) :
    (ex.AppMetadata.len ≠ 1 →
      (Exchange env dir (some ex) tid data streaming cb w).1
          = .ok (none, some (.errorsNew
              ("exchange flight AppMetadata should contain one byte, but length is "
                ++ toString ex.AppMetadata.len)))
        ∧ (Exchange env dir (some ex) tid data streaming cb w).2.trace
          = w.trace ++ [.CString dir (env.CString dir), .free (env.CString dir)]
        ∧ ((Exchange env dir (some ex) tid data streaming cb w).2.trace.filter
            Event.isNativeCall) = w.trace.filter Event.isNativeCall)
    ∧ (ex.AppMetadata.len = 1 → ex.DataBody.len = 0 →
      (Exchange env dir (some ex) tid data streaming cb w).1
          = .ok (none, some (.errorsNew "exchange flight data is missing SSQL statement"))
        ∧ (Exchange env dir (some ex) tid data streaming cb w).2.trace
          = w.trace ++ [.CString dir (env.CString dir), .free (env.CString dir)]
        ∧ ((Exchange env dir (some ex) tid data streaming cb w).2.trace.filter
            Event.isNativeCall) = w.trace.filter Event.isNativeCall)
    ∧ GoError.Error (.errorsNew
          ("exchange flight AppMetadata should contain one byte, but length is "
            ++ toString ex.AppMetadata.len))
        ≠ GoError.Error (.errorsNew "exchange flight data is missing SSQL statement") := by
  refine ⟨fun h => ?_, fun h1 h2 => ?_, ?_⟩
  · rw [exchange_bad_metadata env w dir ex tid data streaming cb h]
    simp [Event.isNativeCall]
  · rw [exchange_empty_body env w dir ex tid data streaming cb h1 h2]
    simp [Event.isNativeCall]
  · exact precondition_messages_differ _

/-- Claim C3 on a request with two discriminator bytes and on a request with
an empty statement body. -/
theorem Exchange_rejects_before_native_call_witness :
    (twoByteRequest.AppMetadata.len ≠ 1
      ∧ (Exchange stubEnv "dir" (some twoByteRequest) 7 Slice.nil false none World.init).1
          = .ok (none, some (.errorsNew
              ("exchange flight AppMetadata should contain one byte, but length is "
                ++ toString twoByteRequest.AppMetadata.len)))
      ∧ (Exchange stubEnv "dir" (some twoByteRequest) 7 Slice.nil false none World.init).2.trace
          = World.init.trace ++ [.CString "dir" (stubEnv.CString "dir"),
              .free (stubEnv.CString "dir")]
      ∧ ((Exchange stubEnv "dir" (some twoByteRequest) 7 Slice.nil false none
            World.init).2.trace.filter Event.isNativeCall)
          = World.init.trace.filter Event.isNativeCall)
    ∧ (emptyBodyRequest.AppMetadata.len = 1 ∧ emptyBodyRequest.DataBody.len = 0
      ∧ (Exchange stubEnv "dir" (some emptyBodyRequest) 7 Slice.nil false none World.init).1
          = .ok (none, some (.errorsNew "exchange flight data is missing SSQL statement"))
      ∧ (Exchange stubEnv "dir" (some emptyBodyRequest) 7 Slice.nil false none
            World.init).2.trace
          = World.init.trace ++ [.CString "dir" (stubEnv.CString "dir"),
              .free (stubEnv.CString "dir")]
      ∧ ((Exchange stubEnv "dir" (some emptyBodyRequest) 7 Slice.nil false none
            World.init).2.trace.filter Event.isNativeCall)
          = World.init.trace.filter Event.isNativeCall) :=
  ⟨⟨by decide,
    (Exchange_rejects_before_native_call stubEnv World.init "dir" twoByteRequest 7 Slice.nil
      false none).1 (by decide)⟩,
   ⟨by decide, by decide,
    (Exchange_rejects_before_native_call stubEnv World.init "dir" emptyBodyRequest 7
      Slice.nil false none).2.1 (by decide) (by decide)⟩⟩

/-- Claim C4: whenever the flattened entity buffer has length 0 (as for an
empty entity sequence flattened to no bytes), `BuildIndexFromColumnizedEntities`
returns nil data and `ErrFlattenColumnedEntity`, and the world is untouched:
`build_index` is not invoked. -/
theorem BuildIndex_empty_input_short_circuits (env : Env Stmt Entity) (w : World)
    (entities : List Entity) :
    ((env.FlattenColumnizedEntities entities).len = 0 →
      BuildIndexFromColumnizedEntities env entities w
        = (.ok (Slice.nil, some .ErrFlattenColumnedEntity), w))
    ∧ ((env.FlattenColumnizedEntities []).len = 0 →
      BuildIndexFromColumnizedEntities env [] w
        = (.ok (Slice.nil, some .ErrFlattenColumnedEntity), w)) := by
  constructor <;> intro h <;> simp [BuildIndexFromColumnizedEntities, h, pure_run]

/-- Claim C4 on the empty entity sequence. -/
theorem BuildIndex_empty_input_short_circuits_witness :
    (stubEnv.FlattenColumnizedEntities []).len = 0
      ∧ BuildIndexFromColumnizedEntities stubEnv [] World.init
        = (.ok (Slice.nil, some .ErrFlattenColumnedEntity), World.init) :=
  ⟨by decide, (BuildIndex_empty_input_short_circuits stubEnv World.init []).1 (by decide)⟩

/-- Claim C5, as stated, fails: for a non-empty batch and a `build_index`
result without error whose pointer is null and whose length is 5, the call
does not return `ErrIndexEntity`; `unsafe.Slice(nil, 5)` panics. -/
theorem BuildIndex_null_pointer_with_length_panics :
    0 < (nullWithLengthEnv.FlattenColumnizedEntities [()]).len
      ∧ (buildIndexResult nullWithLengthEnv [()]).err = 0
      ∧ (buildIndexResult nullWithLengthEnv [()]).ptr = 0
      ∧ (BuildIndexFromColumnizedEntities nullWithLengthEnv [()] World.init).1
          = .error .unsafeSliceNilPtr
      ∧ (BuildIndexFromColumnizedEntities nullWithLengthEnv [()] World.init).1
          ≠ .ok (Slice.nil, some .ErrIndexEntity) := by
  decide

/-- Claim C5, amended: for every non-empty flattened entity batch and every
native `build_index` result that carries no error descriptor and whose length
is zero, `BuildIndexFromColumnizedEntities` returns nil data and
`ErrIndexEntity` (which is distinct from `ErrFlattenColumnedEntity`); a
no-error result is returned as success, as a view of exactly the reported
length, only when the pointer is non-null and the length is non-zero. -/
theorem BuildIndex_zero_length_is_error (env : Env Stmt Entity) (w : World)
    (entities : List Entity)
    (hne : 0 < (env.FlattenColumnizedEntities entities).len)
    (herr : (buildIndexResult env entities).err = 0) :
    ((buildIndexResult env entities).len = 0 →
      (BuildIndexFromColumnizedEntities env entities w).1
        = .ok (Slice.nil, some .ErrIndexEntity))
    ∧ (∀ s, (BuildIndexFromColumnizedEntities env entities w).1 = .ok (s, none) →
        (buildIndexResult env entities).ptr ≠ 0 ∧ (buildIndexResult env entities).len ≠ 0
          ∧ s = ⟨(buildIndexResult env entities).ptr,
              (buildIndexResult env entities).len.val, 0⟩)
    ∧ GoError.ErrIndexEntity ≠ GoError.ErrFlattenColumnedEntity := by
  have hne' : (env.FlattenColumnizedEntities entities).len ≠ 0 := Nat.pos_iff_ne_zero.mp hne
  unfold buildIndexResult at herr ⊢
  refine ⟨fun h0 => ?_, fun s hs => ?_, by decide⟩
  · simp [BuildIndexFromColumnizedEntities, hne, hne', herr, h0, bind_run, pure_run, M.liftE,
      Slice.addrOf, M.emit]
  · obtain ⟨ba, hba⟩ : ∃ ba, env.build_index (env.FlattenColumnizedEntities entities).ptr
        (toCUInt (env.FlattenColumnizedEntities entities).len) = ba := ⟨_, rfl⟩
    rw [hba] at herr ⊢
    simp only [BuildIndexFromColumnizedEntities, hne', hne, bind_run, pure_run, M.liftE,
      Slice.addrOf, M.emit, if_true, if_false, Nat.add_zero, hba, herr, ne_eq,
      not_true_eq_false, unsafeSlice_toInt] at hs
    by_cases h0 : ba.len = 0
    · simp [h0, pure_run] at hs
    · by_cases hneg : 9223372036854775808 ≤ ba.len.val
      · simp [h0, hneg, M.panic, bind_run] at hs
      · by_cases hp : ba.ptr = 0
        · simp [h0, hneg, hp, M.panic, bind_run] at hs
        · simp [h0, hneg, hp, pure_run, bind_run] at hs
          exact ⟨hp, h0, hs.symm⟩

/-- Claim C5, amended, on a result with a non-null pointer and length 0, and
on a result of ten bytes. -/
theorem BuildIndex_zero_length_is_error_witness :
    (0 < (zeroLengthIndexEnv.FlattenColumnizedEntities [()]).len
      ∧ (buildIndexResult zeroLengthIndexEnv [()]).err = 0
      ∧ (buildIndexResult zeroLengthIndexEnv [()]).len = 0
      ∧ (BuildIndexFromColumnizedEntities zeroLengthIndexEnv [()] World.init).1
          = .ok (Slice.nil, some .ErrIndexEntity))
    ∧ (0 < (tenByteIndexEnv.FlattenColumnizedEntities [()]).len
      ∧ (buildIndexResult tenByteIndexEnv [()]).err = 0
      ∧ (BuildIndexFromColumnizedEntities tenByteIndexEnv [()] World.init).1
          = .ok (⟨20480, 10, 0⟩, none)
      ∧ (buildIndexResult tenByteIndexEnv [()]).ptr ≠ 0
      ∧ (buildIndexResult tenByteIndexEnv [()]).len ≠ 0
      ∧ (⟨20480, 10, 0⟩ : Slice) = ⟨(buildIndexResult tenByteIndexEnv [()]).ptr,
          (buildIndexResult tenByteIndexEnv [()]).len.val, 0⟩) :=
  ⟨⟨by decide, by decide, by decide,
    (BuildIndex_zero_length_is_error zeroLengthIndexEnv World.init [()] (by decide)
      (by decide)).1 (by decide)⟩,
   ⟨by decide, by decide, by decide,
    (BuildIndex_zero_length_is_error tenByteIndexEnv World.init [()] (by decide)
      (by decide)).2.1 ⟨20480, 10, 0⟩ (by decide)⟩⟩

/-- Claim C6: for every statement that serializes successfully and every
transient id and transient buffer, if the native `query_cluster` call (reached
as soon as the flattened request is non-empty) returns a null result pointer
and a null error descriptor, `QueryLocal` returns an empty, zero-length result
and no error; and `QueryLocal` is `QueryCluster` with no hosts and locality
flag 0. -/
theorem QueryLocal_empty_result (env : Env Stmt Entity) (w : World) (dir : String)
    (stmt : Stmt) (transientID : Nat) (transientBuf : Slice) (qry : Slice) :
    (env.Marshal stmt = .ok qry → 0 < (env.FlattenClusterQuery qry [] 0).len →
      (queryClusterResult env dir qry [] 0 transientID transientBuf).ptr = 0 →
      (queryClusterResult env dir qry [] 0 transientID transientBuf).err = 0 →
      (QueryLocal env dir stmt transientID transientBuf w).1 = .ok (⟨env.zerobase, 0, 0⟩, none)
        ∧ (⟨env.zerobase, 0, 0⟩ : Slice).len = 0)
    ∧ QueryLocal env dir stmt transientID transientBuf
        = QueryCluster env dir stmt [] 0 transientID transientBuf := by
  refine ⟨fun hm hd hptr herr => ⟨?_, rfl⟩, rfl⟩
  unfold queryClusterResult at hptr herr
  have hd' : (env.FlattenClusterQuery qry [] 0).len ≠ 0 := Nat.pos_iff_ne_zero.mp hd
  by_cases ht : 0 < transientBuf.len
  · simp only [ht, if_true] at hptr herr
    simp [QueryLocal, QueryCluster, hm, hd, hd', ht, hptr, herr, bind_run, pure_run, M.liftE,
      Slice.addrOf, M.emit, M.defer, C.CString, C.free, decodeErr]
  · simp only [ht, if_false] at hptr herr
    simp [QueryLocal, QueryCluster, hm, hd, hd', ht, hptr, herr, bind_run, pure_run, M.liftE,
      Slice.addrOf, M.emit, M.defer, C.CString, C.free, decodeErr]

/-- Claim C6 on an engine that reports "no data, no error". -/
theorem QueryLocal_empty_result_witness :
    stubEnv.Marshal () = .ok ⟨8192, 3, 0⟩
      ∧ 0 < (stubEnv.FlattenClusterQuery ⟨8192, 3, 0⟩ [] 0).len
      ∧ (queryClusterResult stubEnv "dir" ⟨8192, 3, 0⟩ [] 0 7 Slice.nil).ptr = 0
      ∧ (queryClusterResult stubEnv "dir" ⟨8192, 3, 0⟩ [] 0 7 Slice.nil).err = 0
      ∧ (QueryLocal stubEnv "dir" () 7 Slice.nil World.init).1
          = .ok (⟨stubEnv.zerobase, 0, 0⟩, none)
      ∧ (⟨stubEnv.zerobase, 0, 0⟩ : Slice).len = 0 :=
  ⟨by decide, by decide, by decide, by decide,
    (QueryLocal_empty_result stubEnv World.init "dir" () 7 Slice.nil ⟨8192, 3, 0⟩).1
      (by decide) (by decide) (by decide) (by decide)⟩

/-- Claim C7 fails on the code: when `query_cluster` returns a non-null data
pointer with length 0 together with a non-null error pointer (24576),
`QueryCluster` panics at `&data[0]` in its log statement (`bridge.go:103`); it
returns no error value and the error pointer is never released. -/
theorem QueryCluster_leaks_error_on_empty_view :
    (queryClusterResult emptyViewWithErrorEnv "dir" ⟨8192, 3, 0⟩ [] 0 7 Slice.nil).err = 24576
      ∧ (QueryCluster emptyViewWithErrorEnv "dir" () [] 0 7 Slice.nil World.init).1
          = .error (.indexOutOfRange 0 0)
      ∧ (QueryCluster emptyViewWithErrorEnv "dir" () [] 0 7 Slice.nil World.init).2.trace.count
          (.free 24576) = 0 := by
  decide

/-- Claim C8: every `Exchange` call that passes its precondition checks creates
exactly one callback handle `h`, holding the supplied `Send` predicate, before
the native `exchange` call (`exchangeWorld`), and deletes that same handle
exactly once before it returns, whatever the engine does during the call (no
re-entry, re-entries answered "stop" or not, a re-entry that panics, an engine
error): between `NewHandle h` and `Delete h` no handle event is recorded; a
call rejected by a precondition check records no handle event; in both cases
the live handles after the call are those before it, and the invariant of the
handle table is kept. -/
theorem Exchange_handle_scoped (env : Env Stmt Entity) (w : World) (dir : String)
    (ex : FlightData) (tid : Nat) (data : Slice) (streaming : Bool)
    (cb : Option (Slice → Slice → Bool)) (hwf : w.WF) :
    (ex.AppMetadata.len = 1 → ex.DataBody.len ≠ 0 →
      (Handle.Value (w.handleIdx + 1) (exchangeWorld env w dir ex tid data streaming cb)).1
        = .ok ⟨cb⟩
      ∧ ∃ mid post : List Event,
        (runExchange (exchangeEngine env dir ex tid data streaming (w.handleIdx + 1))
            (w.handleIdx + 1) (exchangeWorld env w dir ex tid data streaming cb)).2.trace
          = w.trace ++ [.CString dir (env.CString dir), .NewHandle (w.handleIdx + 1),
              exchangeCall env dir ex tid data streaming (w.handleIdx + 1)] ++ mid
        ∧ (∀ e ∈ mid, Event.isHandleEvent e = false)
        ∧ (∀ e ∈ post, Event.isHandleEvent e = false)
        ∧ (Exchange env dir (some ex) tid data streaming cb w).2.trace
            = w.trace ++ [.CString dir (env.CString dir), .NewHandle (w.handleIdx + 1),
                exchangeCall env dir ex tid data streaming (w.handleIdx + 1)] ++ mid ++ post
              ++ [.Delete (w.handleIdx + 1), .free (env.CString dir)]
        ∧ (Exchange env dir (some ex) tid data streaming cb w).2.handles = w.handles
        ∧ (Exchange env dir (some ex) tid data streaming cb w).2.WF)
    ∧ ((ex.AppMetadata.len ≠ 1 ∨ ex.DataBody.len = 0) →
        (Exchange env dir (some ex) tid data streaming cb w).2.trace
            = w.trace ++ [.CString dir (env.CString dir), .free (env.CString dir)]
        ∧ (Exchange env dir (some ex) tid data streaming cb w).2.handles = w.handles
        ∧ (Exchange env dir (some ex) tid data streaming cb w).2.WF) := by
  constructor
  · intro h1 h2
    refine ⟨by simp [Handle.Value, exchangeWorld], ?_⟩
    have hwf' : ∀ e ∈ w.handles, e.1 ≤ w.handleIdx + 1 := fun e he =>
      Nat.le_succ_of_le (hwf e he)
    obtain ⟨mid, m1, m2, -, -⟩ := quiet_runExchange
      (exchangeEngine env dir ex tid data streaming (w.handleIdx + 1)) (w.handleIdx + 1)
      (exchangeWorld env w dir ex tid data streaming cb)
    rcases hrun : runExchange (exchangeEngine env dir ex tid data streaming (w.handleIdx + 1))
      (w.handleIdx + 1) (exchangeWorld env w dir ex tid data streaming cb) with ⟨r, w2⟩
    rw [hrun] at m1
    simp only [exchangeWorld] at m1
    have hE := exchange_accepted env w dir ex tid data streaming cb hwf h1 h2 r w2 hrun
    cases r with
    | error p =>
      simp only at hE
      rw [hE]
      exact ⟨mid, [], m1, m2, by simp, by simp [m1], rfl, hwf'⟩
    | ok efd =>
      cases hh : viewOf efd.header.ptr efd.header.len Slice.nil with
      | error p =>
        simp only [hh] at hE
        rw [hE]
        exact ⟨mid, [], m1, m2, by simp, by simp [m1], rfl, hwf'⟩
      | ok header =>
        cases hb : viewOf efd.body.ptr efd.body.len Slice.nil with
        | error p =>
          simp only [hh, hb] at hE
          rw [hE]
          exact ⟨mid, [], m1, m2, by simp, by simp [m1], rfl, hwf'⟩
        | ok body =>
          simp only [hh, hb] at hE
          rw [hE]
          refine ⟨mid, (decodedErr env efd.err).2, m1, m2, ?_, by simp [m1], rfl, hwf'⟩
          intro e he
          unfold decodedErr at he
          split at he <;> simp at he
          subst he
          rfl
  · intro h
    by_cases h1 : ex.AppMetadata.len = 1
    · have h2 : ex.DataBody.len = 0 := by
        rcases h with h | h
        · exact absurd h1 h
        · exact h
      rw [exchange_empty_body env w dir ex tid data streaming cb h1 h2]
      exact ⟨rfl, rfl, hwf⟩
    · rw [exchange_bad_metadata env w dir ex tid data streaming cb h1]
      exact ⟨rfl, rfl, hwf⟩

/-- Claim C8 on an engine that re-enters Go five times, is told to stop at
the third re-entry, and then reports an error: handle 1 is created once,
deleted once, and no handle is live afterwards; and on a rejected request:
no handle event. -/
theorem Exchange_handle_scoped_witness :
    (World.init.WF ∧ goodRequest.AppMetadata.len = 1 ∧ goodRequest.DataBody.len ≠ 0
      ∧ (Exchange fiveCallbacksEnv "dir" (some goodRequest) 7 Slice.nil true
          (some stopOnThird) World.init).2.handles = World.init.handles
      ∧ ((Exchange fiveCallbacksEnv "dir" (some goodRequest) 7 Slice.nil true
          (some stopOnThird) World.init).2.trace.count (.NewHandle 1)) = 1
      ∧ ((Exchange fiveCallbacksEnv "dir" (some goodRequest) 7 Slice.nil true
          (some stopOnThird) World.init).2.trace.count (.Delete 1)) = 1)
    ∧ ((twoByteRequest.AppMetadata.len ≠ 1 ∨ twoByteRequest.DataBody.len = 0)
      ∧ (Exchange fiveCallbacksEnv "dir" (some twoByteRequest) 7 Slice.nil true
          (some stopOnThird) World.init).2.trace
          = World.init.trace ++ [.CString "dir" (fiveCallbacksEnv.CString "dir"),
              .free (fiveCallbacksEnv.CString "dir")]
      ∧ (Exchange fiveCallbacksEnv "dir" (some twoByteRequest) 7 Slice.nil true
          (some stopOnThird) World.init).2.handles = World.init.handles) := by
  have hwf : World.init.WF := by intro e he; simp [World.init] at he
  have h := (Exchange_handle_scoped fiveCallbacksEnv World.init "dir" goodRequest 7 Slice.nil
    true (some stopOnThird) hwf).1 (by decide) (by decide)
  have hr := (Exchange_handle_scoped fiveCallbacksEnv World.init "dir" twoByteRequest 7
    Slice.nil true (some stopOnThird) hwf).2 (by decide)
  obtain ⟨-, mid, post, -, m2, p2, ht, hh, -⟩ := h
  refine ⟨⟨hwf, by decide, by decide, hh, ?_, ?_⟩, by decide, hr.1, hr.2.1⟩
  · rw [ht]
    have c1 : mid.count (.NewHandle 1) = 0 :=
      List.count_eq_zero.mpr fun hc => by simpa [Event.isHandleEvent] using m2 _ hc
    have c2 : post.count (.NewHandle 1) = 0 :=
      List.count_eq_zero.mpr fun hc => by simpa [Event.isHandleEvent] using p2 _ hc
    simp [List.count_append, c1, c2, World.init, exchangeCall, List.count_cons]
  · rw [ht]
    have c1 : mid.count (.Delete 1) = 0 :=
      List.count_eq_zero.mpr fun hc => by simpa [Event.isHandleEvent] using m2 _ hc
    have c2 : post.count (.Delete 1) = 0 :=
      List.count_eq_zero.mpr fun hc => by simpa [Event.isHandleEvent] using p2 _ hc
    simp [List.count_append, c1, c2, World.init, exchangeCall, List.count_cons]

/-- Claim C9 fails on the code: `AddQuickFilter` with zero-length data takes
`&data[0]` unguarded and panics with index out of range before the native
call; `StatementToArrowSchema` does the same on a statement whose
serialization is zero-length. -/
theorem AddQuickFilter_empty_data_panics :
    (AddQuickFilter stubEnv "flight" 7 ⟨64, 0, 0⟩ World.init).1
        = .error (.indexOutOfRange 0 0)
      ∧ (AddQuickFilter stubEnv "flight" 7 ⟨64, 0, 0⟩ World.init).2.trace
          = [.CString "flight" 4096, .free 4096]
      ∧ (StatementToArrowSchema emptyStatementEnv () World.init).1
          = .error (.indexOutOfRange 0 0)
      ∧ (StatementToArrowSchema emptyStatementEnv () World.init).2.trace = [] := by
  decide

/-- Claim C10 fails on the code: when `query_cluster` returns a non-null data
pointer with reported length 0 together with a non-null error, `QueryCluster`
returns neither the zero-length view nor the error; it panics at `&data[0]`
in its log statement (`bridge.go:103`). -/
theorem QueryCluster_panics_on_zero_length_view :
    (queryClusterResult emptyViewEnv "dir" ⟨8192, 3, 0⟩ [] 0 7 Slice.nil).ptr = 28672
      ∧ (queryClusterResult emptyViewEnv "dir" ⟨8192, 3, 0⟩ [] 0 7 Slice.nil).len = 0
      ∧ (queryClusterResult emptyViewEnv "dir" ⟨8192, 3, 0⟩ [] 0 7 Slice.nil).err = 32768
      ∧ (QueryCluster emptyViewEnv "dir" () [] 0 7 Slice.nil World.init).1
          = .error (.indexOutOfRange 0 0)
      ∧ (QueryCluster emptyViewEnv "dir" () [] 0 7 Slice.nil World.init).1
          ≠ .ok (⟨28672, 0, 0⟩, some (.errorsNew (emptyViewEnv.GoString 32768))) := by
  decide

end Claims

end RustBridge
